import Mathlib

/-!
Shallow embedding of the cz-emoji commitizen adapter (src/index.js and its
near-duplicate variant). JavaScript strings become `String`, records become
structures, `undefined`-able array slots become `Option String`, and the
promise/rejection discipline of the async functions becomes `Except`.
-/

namespace CzEmoji

/-- A change-type catalog entry (`types` entries of the configuration). -/
structure ChangeType where
  code : String
  emoji : String
  name : String
  description : String
deriving Repr, DecidableEq

/-- The `value` object bound to a selected change type in `getEmojiChoices`. -/
structure ChoiceValue where
  emoji : String
  name : String
deriving Repr, DecidableEq

/-- One selectable entry produced by `getEmojiChoices`. -/
structure ChoiceEntry where
  name : String
  value : ChoiceValue
  code : String
deriving Repr, DecidableEq

/-- A workflow catalog entry (`workflows` entries, plus the `[NONE]` sentinel). -/
structure WorkflowTag where
  name : String
  value : String
deriving Repr, DecidableEq

/-- `pad(str, length)` of the `pad` npm package as used here: right-pad with
spaces up to the given length (no-op when already at least that long). -/
def pad (s : String) (n : Nat) : String :=
  s ++ String.mk (List.replicate (n - s.length) ' ')

/-- `getEmojiChoices({ types, symbol })` from src/index.js. -/
def getEmojiChoices (types : List ChangeType) (symbol : Bool) : List ChoiceEntry :=
  let maxNameLength := types.foldl
    (fun maxLength t => if t.name.length > maxLength then t.name.length else maxLength) 0
  types.map fun choice =>
    { name := pad choice.name maxNameLength ++ "  " ++ choice.emoji ++ "  " ++ choice.description
      value := { emoji := if symbol then choice.emoji ++ " " else choice.code
                 name := choice.name }
      code := choice.code }

/-- The accumulated answer record handed to the formatters. Fields that the
prompt engine collects as free text are plain strings; a skipped or empty
answer is the empty string (JavaScript falsy), matching how the formatters
test them with truthiness. -/
structure Answers where
  type : ChoiceValue
  scope : String
  issues : String
  workflow : String
  subject : String
  time : String
  comment : String
  body : String
deriving Repr, DecidableEq

/-- The resolved configuration record (`defaultConfig` merged with overrides). -/
structure Config where
  types : List ChangeType
  workflows : List WorkflowTag
  projectDir : String
  symbol : Bool
  skipQuestions : List String
  subjectMaxLength : Nat
  conventional : Bool
  scopes : Option (List String)
  questionsType : Option String
deriving Repr

/-- JavaScript string truthiness: a string is truthy iff non-empty. -/
def truthyStr (s : String) : Bool := !s.isEmpty

/-- `formatScope(scope)` from src/index.js. -/
def formatScope (scope : String) : String :=
  if truthyStr scope then "(" ++ scope ++ ")" else ""

/-- `formatHead(answers, config)` from src/index.js. The answer record is
destructured for `type`, `scope`, `issues`, `workflow`, `subject`, `time`
and `comment`, but only `type`, `scope` and `subject` are used. -/
def formatHead (a : Answers) (config : Config) : String :=
  let pre := if config.conventional
    then a.type.name ++ formatScope a.scope ++ ": " ++ a.type.emoji
    else a.type.emoji ++ " " ++ formatScope a.scope ++ " "
  pre ++ " " ++ a.subject

/-- `filter(array)` from src/index.js: keep the truthy elements (drops
`undefined`, modelled as `none`, and empty strings). -/
def filter (array : List (Option String)) : List String :=
  array.filterMap fun item =>
    match item with
    | none => none
    | some s => if s.isEmpty then none else some s

/-- `formatLineItem(issues, line)` from src/index.js. -/
def formatLineItem (issues line : String) : String :=
  issues ++ " " ++ line

/-- `formatBody(answers, config)` from src/index.js. -/
def formatBody (a : Answers) (config : Config) : String :=
  let smartText := String.intercalate " " (filter [
    if truthyStr a.workflow && a.workflow != "[NONE]" then some ("#" ++ a.workflow) else none,
    if truthyStr a.time then some ("#time " ++ a.time) else none,
    if truthyStr a.comment then some ("#comment " ++ a.comment) else none])
  a.body ++ " \n " ++ formatLineItem a.issues smartText

/-- The result of an inquirer `validate` callback: `true` or an error string. -/
inductive ValidateResult where
  | ok : ValidateResult
  | error : String → ValidateResult
deriving Repr, DecidableEq

/-- The `validate` callback of the `issues` question in `createQuestions`:
`if (!input) return 'Must specify issue IDs'; else return true`. -/
def issuesValidate (input : String) : ValidateResult :=
  if truthyStr input then ValidateResult.ok else ValidateResult.error "Must specify issue IDs"

/-! ### Version-control context resolver

`getGitBranch` runs `git rev-parse --abbrev-ref HEAD` and scans its output
with the JavaScript regex `/((?!([A-Z0-9a-z]{1,10})-?$)[A-Z]{1}[A-Z0-9]+-\d+)/g`.
The regex is modelled character-by-character with JavaScript semantics:
leftmost non-overlapping matches, greedy quantifiers, and the negative
lookahead evaluated at the start position of each match attempt (`$` is the
absolute end of the string, there being no `m` flag). -/

/-- Membership in the character class `[A-Z]`. -/
def isUpperAZ (c : Char) : Bool := 'A' ≤ c && c ≤ 'Z'

/-- Membership in the character class `[A-Z0-9]`. -/
def isUpperOrDigit (c : Char) : Bool := isUpperAZ c || ('0' ≤ c && c ≤ '9')

/-- Membership in the character class `[A-Z0-9a-z]`. -/
def isJsAlnum (c : Char) : Bool := isUpperOrDigit c || ('a' ≤ c && c ≤ 'z')

/-- Membership in the character class `\d`. -/
def isDigitChar (c : Char) : Bool := '0' ≤ c && c ≤ '9'

/-- The lookahead body `([A-Z0-9a-z]{1,10})-?$` tested against the tail of
the string starting at a match-attempt position: it matches iff some run of
1 to 10 alphanumerics, optionally followed by a single `-`, ends the string. -/
def lookaheadShortTail (tail : List Char) : Bool :=
  (List.range 10).any fun i =>
    let k := i + 1
    decide (k ≤ tail.length) && (tail.take k).all isJsAlnum &&
      (tail.drop k == [] || tail.drop k == ['-'])

/-- Attempt to match `[A-Z]{1}[A-Z0-9]+-\d+` at the start of `tail` with
greedy quantifiers; on success return the matched characters and the
remainder of the string after the match. -/
def matchCoreAt (tail : List Char) : Option (List Char × List Char) :=
  match tail with
  | [] => none
  | c :: rest =>
    if isUpperAZ c then
      let run := rest.takeWhile isUpperOrDigit
      let afterRun := rest.drop run.length
      if run.length ≥ 1 then
        match afterRun with
        | '-' :: afterDash =>
          let digits := afterDash.takeWhile isDigitChar
          if digits.length ≥ 1 then
            some (c :: run ++ '-' :: digits, afterDash.drop digits.length)
          else none
        | _ => none
      else none
    else none

/-- One match attempt of the full pattern at the start of `tail`: the
negative lookahead must fail there, then the core pattern must match. -/
def matchJiraAt (tail : List Char) : Option (List Char × List Char) :=
  if lookaheadShortTail tail then none else matchCoreAt tail

/-- Global scan (`/g` flag): collect the leftmost non-overlapping matches,
resuming after the end of each match. Fuel is the number of remaining
characters; every step consumes at least one character, so fuel equal to the
initial length is exact. -/
def jiraMatchesAux : Nat → List Char → List (List Char)
  | 0, _ => []
  | _ + 1, [] => []
  | fuel + 1, c :: rest =>
    match matchJiraAt (c :: rest) with
    | some (m, remain) => m :: jiraMatchesAux fuel remain
    | none => jiraMatchesAux fuel rest

/-- All matches of the jira-ticket regex in a string, in order. -/
def jiraMatches (s : List Char) : List (List Char) :=
  jiraMatchesAux s.length s

/-- The pure part of `getGitBranch` from src/index.js: match the branch text
against the jira pattern and return the last match, or the sentinel
`'no jira ticket'` when the match result is null. -/
def getGitBranchResolve (branchText : String) : String :=
  match (jiraMatches branchText.data).getLast? with
  | some m => String.mk m
  | none => "no jira ticket"

/-- `getGitBranch()` from src/index.js, with the awaited
`execProm('git rev-parse --abbrev-ref HEAD')` made explicit as an `Except`
input: a rejected exec promise makes the `await` throw, so the rejection
propagates; on success the stdout text is scanned. -/
def getGitBranch (execResult : Except String String) : Except String String :=
  match execResult with
  | Except.error e => Except.error e
  | Except.ok stdout => Except.ok (getGitBranchResolve stdout)

/-! ### Configuration loading -/

/-- A partial configuration override as read from a `.czrc` file: any subset
of the recognized keys may be present (object spread semantics). -/
structure PartialConfig where
  types : Option (List ChangeType) := none
  workflows : Option (List WorkflowTag) := none
  projectDir : Option String := none
  symbol : Option Bool := none
  skipQuestions : Option (List String) := none
  subjectMaxLength : Option Nat := none
  conventional : Option Bool := none
  scopes : Option (List String) := none
  questionsType : Option String := none
deriving Repr

/-- `defaultConfig` from src/index.js. The built-in change-type catalog is
`require('./lib/types')`, a module of this repository not present here, so
it is taken as the parameter `libTypes`. -/
def defaultConfig (libTypes : List ChangeType) : Config :=
  { types := libTypes
    workflows := []
    projectDir := "~/workspace/hanger"
    symbol := false
    skipQuestions := [""]
    subjectMaxLength := 75
    conventional := false
    scopes := none
    questionsType := none }

/-- `{ ...defaultConfig, ...config }`: keys present in the override replace
the defaults; an absent or unreadable override (`null`) leaves the defaults. -/
def mergeConfig (d : Config) (o : Option PartialConfig) : Config :=
  match o with
  | none => d
  | some p =>
    { types := p.types.getD d.types
      workflows := p.workflows.getD d.workflows
      projectDir := p.projectDir.getD d.projectDir
      symbol := p.symbol.getD d.symbol
      skipQuestions := p.skipQuestions.getD d.skipQuestions
      subjectMaxLength := p.subjectMaxLength.getD d.subjectMaxLength
      conventional := p.conventional.getD d.conventional
      scopes := match p.scopes with | some s => some s | none => d.scopes
      questionsType := match p.questionsType with | some q => some q | none => d.questionsType }

/-- What `loadConfig` produces on success: it assigns the module-level
`jiraTicket` and resolves to the merged configuration. -/
structure LoadResult where
  jiraTicket : String
  config : Config
deriving Repr

/-- `loadConfig()` from src/index.js. `jiraTicket = await getGitBranch()` is
the first statement, so a rejection of the branch lookup rejects the whole
promise. The `.czrc` read is external: its outcome is the `czrc` parameter,
already `none` when the file was missing or unparsable (those errors are
caught and turned into `null` inside `readFromCzrc`). -/
def loadConfig (libTypes : List ChangeType) (execResult : Except String String)
    (czrc : Option PartialConfig) : Except String LoadResult :=
  match getGitBranch execResult with
  | Except.error e => Except.error e
  | Except.ok ticket =>
    Except.ok { jiraTicket := ticket, config := mergeConfig (defaultConfig libTypes) czrc }

/-! ### Question pipeline

`createQuestions(config)` builds the ordered inquirer question array. The two
fuse.js indexes are external library objects; their `search` methods are taken
as function parameters (the repository code only decides when they are called:
on a truthy query). -/

/-- One inquirer question spec, one constructor per element of the array
built by `createQuestions`, carrying the configuration-dependent data of that
element. -/
inductive Question where
  | typeQ (message : String) (source : String → List ChoiceEntry)
  | scopeQ (isList : Bool) (ask : Bool)
  | issuesQ (defaultTicket : String) (validate : String → ValidateResult)
  | timeQ
  | commentQ
  | workflowQ (source : String → List WorkflowTag)
  | subjectQ (maxLength : Nat) (transform : String → Answers → String)
  | bodyQ (ask : Bool) (transform : String → Answers → String)

/-- The `type` question's `source` callback:
`(_, query) => Promise.resolve(query ? fuzzyEmojis.search(query) : choices)`. -/
def typeSource (fuzzyEmojis : String → List ChoiceEntry) (choices : List ChoiceEntry)
    (query : String) : List ChoiceEntry :=
  if truthyStr query then fuzzyEmojis query else choices

/-- The `workflow` question's `source` callback:
`(_, query) => Promise.resolve(query ? fuzzyWorkflows.search(query) : workflows)`. -/
def workflowSource (fuzzyWorkflows : String → List WorkflowTag) (workflows : List WorkflowTag)
    (query : String) : List WorkflowTag :=
  if truthyStr query then fuzzyWorkflows query else workflows

/-- The `type` question's message:
`config.questions && config.questions.type ? config.questions.type : "…"`. -/
def questionTypeMessage (config : Config) : String :=
  match config.questionsType with
  | some m => m
  | none => "Select the type of change you're committing:"

/-- `createQuestions(config)` from src/index.js. `fuseSearchEmojis` and
`fuseSearchWorkflows` stand for the external fuse.js engines built over the
respective collections; `jiraTicket` is the module-level variable set by
`loadConfig`. -/
def createQuestions (fuseSearchEmojis : List ChoiceEntry → String → List ChoiceEntry)
    (fuseSearchWorkflows : List WorkflowTag → String → List WorkflowTag)
    (jiraTicket : String) (config : Config) : List Question :=
  let choices := getEmojiChoices config.types config.symbol
  let workflows : List WorkflowTag := { name := "[NONE]", value := "[NONE]" } :: config.workflows
  let fuzzyEmojis := fuseSearchEmojis choices
  let fuzzyWorkflows := fuseSearchWorkflows workflows
  [ Question.typeQ (questionTypeMessage config) (typeSource fuzzyEmojis choices),
    Question.scopeQ config.scopes.isSome (!(config.skipQuestions.contains "scope")),
    Question.issuesQ jiraTicket issuesValidate,
    Question.timeQ,
    Question.commentQ,
    Question.workflowQ (workflowSource fuzzyWorkflows workflows),
    Question.subjectQ config.subjectMaxLength
      (fun subject answers => formatHead { answers with subject := subject } config),
    Question.bodyQ (!(config.skipQuestions.contains "body"))
      (fun body answers => formatBody { answers with body := body } config) ]

/-- The `source` callback of the first `typeQ` question in a question list,
if any. -/
def findTypeSource : List Question → Option (String → List ChoiceEntry)
  | [] => none
  | Question.typeQ _ src :: _ => some src
  | _ :: rest => findTypeSource rest

/-- The `source` callback of the first `workflowQ` question in a question
list, if any. -/
def findWorkflowSource : List Question → Option (String → List WorkflowTag)
  | [] => none
  | Question.workflowQ src :: _ => some src
  | _ :: rest => findWorkflowSource rest

/-- A resolved configuration with zero change-types (e.g. a `.czrc` override
`"types": []` spread over the defaults). -/
def emptyTypesConfig : Config :=
  { defaultConfig [] with types := [] }

/-- Specification-side description of the smart-commit suffix tokens (claim
wording): exactly the present-and-non-sentinel among `"#" + workflow`
(omitted when workflow is the `[NONE]` sentinel), `"#time " + time` and
`"#comment " + comment`, in that order. Used to compare `formatBody` against
its specification. -/
def smartTokensSpec (a : Answers) : List String :=
  (if a.workflow ≠ "" ∧ a.workflow ≠ "[NONE]" then ["#" ++ a.workflow] else []) ++
  (if a.time ≠ "" then ["#time " ++ a.time] else []) ++
  (if a.comment ≠ "" then ["#comment " ++ a.comment] else [])

/-! ### Auxiliary definitions for stating and witnessing the properties -/

/-- Substring test on character lists: `hasSubstring needle hay` is true iff
`needle` occurs contiguously inside `hay`. Used to state containment facts
about formatted commit text. -/
def hasSubstring (needle : List Char) : List Char → Bool
  | [] => needle.isEmpty
  | c :: rest => needle.isPrefixOf (c :: rest) || hasSubstring needle rest

/-- A trivial stand-in for the external fuse.js search engine over choice
entries (never consulted by the properties below, which only exercise the
empty-query path). -/
def noFuseEmojis : List ChoiceEntry → String → List ChoiceEntry := fun _ _ => []

/-- A trivial stand-in for the external fuse.js search engine over workflow
entries. -/
def noFuseWorkflows : List WorkflowTag → String → List WorkflowTag := fun _ _ => []

/-- A concrete change type, as in the repository's README example. -/
def sampleType : ChangeType :=
  { code := ":star2:", emoji := "🌟", name := "feature", description := "A new feature" }

/-- A concrete resolved configuration with one change type. -/
def sampleConfig : Config := defaultConfig [sampleType]

/-- A concrete answer record used for head-line formatting. -/
def headAnswersA : Answers :=
  { type := { emoji := "🌟", name := "feature" }, scope := "api", issues := "ABC-1",
    workflow := "[NONE]", subject := "add x", time := "2h", comment := "done", body := "b" }

/-- The same record with the `issues`, `workflow`, `time` and `comment`
fields all changed. -/
def headAnswersB : Answers :=
  { headAnswersA with issues := "XYZ-9", workflow := "deploy", time := "", comment := "other" }

/-- A concrete answer record whose smart-commit suffix is empty: `time` and
`comment` absent (empty answers) and `workflow` the `[NONE]` sentinel. -/
def bodyAnswers : Answers :=
  { type := { emoji := "", name := "" }, scope := "", issues := "ABC-1",
    workflow := "[NONE]", subject := "", time := "", comment := "", body := "fix bug" }

/-! ### Helper lemmas -/

/-- Appending anything to a non-empty string yields a non-empty string. -/
theorem append_isEmpty_false (p s : String) (h : p.data ≠ []) : (p ++ s).isEmpty = false := by
  rw [Bool.eq_false_iff]
  intro hc
  have he := (String.isEmpty_iff (p ++ s)).mp hc
  have hdata : (p ++ s).data = [] := by rw [he]
  rw [String.data_append] at hdata
  exact h (List.append_eq_nil.mp hdata).1

/-- A string different from `""` has `isEmpty = false`. -/
theorem isEmpty_false_of_ne (s : String) (h : s ≠ "") : s.isEmpty = false := by
  rw [Bool.eq_false_iff]
  intro hc
  exact h ((String.isEmpty_iff s).mp hc)

/-- `formatBody` agrees with its specification-side description: the result
is the body, the ` \n ` separator, the issues, a space, and the
space-separated smart-commit tokens of `smartTokensSpec`. -/
theorem formatBody_eq_spec (a : Answers) (config : Config) :
    formatBody a config =
      a.body ++ " \n " ++ a.issues ++ " " ++ String.intercalate " " (smartTokensSpec a) := by
  have h0 : ("" : String).isEmpty = true := rfl
  have hw := append_isEmpty_false "#" a.workflow (by decide)
  have ht := append_isEmpty_false "#time " a.time (by decide)
  have hc := append_isEmpty_false "#comment " a.comment (by decide)
  have hN : ("[NONE]" : String).isEmpty = false := rfl
  unfold formatBody filter formatLineItem smartTokensSpec truthyStr
  rcases eq_or_ne a.workflow "" with hW0 | hW0 <;>
  rcases eq_or_ne a.workflow "[NONE]" with hWN | hWN <;>
  rcases eq_or_ne a.time "" with hT | hT <;>
  rcases eq_or_ne a.comment "" with hC | hC <;>
  simp [hW0, hWN, hT, hC, hw, ht, hc, h0, hN, isEmpty_false_of_ne, bne_iff_ne,
    String.append_assoc, String.append_empty]

/-! ### Claims -/

/-- Claim C1, counterexample: the `issues` validate callback does not trim
its input. The whitespace-only string `" "` has an empty trimmed value, yet
the callback accepts it (returns `true`), so the claim that every
whitespace-only input is rejected is false. -/
theorem issuesValidate_whitespace_counterexample :
    issuesValidate " " = ValidateResult.ok ∧
    " ".data.all Char.isWhitespace = true ∧ (" " : String) ≠ "" := by
  exact ⟨rfl, by decide, by decide⟩

/-- Claim C1, amended: the validate callback of the `issues` question
rejects exactly the empty string: it returns the error message
`'Must specify issue IDs'` for `""` and `true` for every other input,
including whitespace-only ones (the input is tested for JavaScript
truthiness, not trimmed). -/
theorem issuesValidate_amended :
    issuesValidate "" = ValidateResult.error "Must specify issue IDs" ∧
    ∀ input : String, input ≠ "" → issuesValidate input = ValidateResult.ok := by
  refine ⟨rfl, ?_⟩
  intro input h
  simp [issuesValidate, truthyStr, isEmpty_false_of_ne input h]

/-- Witness for `issuesValidate_amended` at the whitespace-only input `" "`. -/
theorem issuesValidate_amended_witness : issuesValidate " " = ValidateResult.ok :=
  issuesValidate_amended.2 " " (by decide)

/-- Claim C2, counterexample: when the branch lookup command fails (not a
repository), `getGitBranch` does not fall back to the sentinel — the
rejection propagates, and `loadConfig` (whose first step awaits the lookup)
rejects too, so configuration loading does not proceed. -/
theorem getGitBranch_failure_counterexample :
    getGitBranch (Except.error "fatal: not a git repository") =
      Except.error "fatal: not a git repository" ∧
    getGitBranch (Except.error "fatal: not a git repository") ≠ Except.ok "no jira ticket" ∧
    loadConfig [] (Except.error "fatal: not a git repository") none =
      Except.error "fatal: not a git repository" := by
  refine ⟨rfl, ?_, rfl⟩
  intro h
  exact Except.noConfusion h

/-- Claim C2, amended: a failure of the underlying version-control call
propagates out of `getGitBranch` and through `loadConfig`, so the session
aborts before prompting; the sentinel `'no jira ticket'` is produced only
when the command succeeds and its output contains no issue-key match. -/
theorem getGitBranch_failure_amended (e s : String) (libTypes : List ChangeType)
    (czrc : Option PartialConfig) (h : jiraMatches s.data = []) :
    getGitBranch (Except.error e) = Except.error e ∧
    loadConfig libTypes (Except.error e) czrc = Except.error e ∧
    getGitBranch (Except.ok s) = Except.ok "no jira ticket" := by
  refine ⟨rfl, rfl, ?_⟩
  have hr : getGitBranch (Except.ok s) = Except.ok (getGitBranchResolve s) := rfl
  rw [hr]
  unfold getGitBranchResolve
  rw [h]
  rfl

/-- Witness for `getGitBranch_failure_amended` at a concrete error and the
branch `main`. -/
theorem getGitBranch_failure_amended_witness :
    getGitBranch (Except.error "boom") = Except.error "boom" ∧
    loadConfig [] (Except.error "boom") none = Except.error "boom" ∧
    getGitBranch (Except.ok "main") = Except.ok "no jira ticket" :=
  getGitBranch_failure_amended "boom" "main" [] none (by decide)

/-- Claim C3, counterexample: with zero change-types configured, no
configuration error is surfaced before prompting. `createQuestions` still
returns the full eight-question list, and the `type` question's source
resolves the empty query to the empty choice list — the pipeline proceeds
to the prompt engine with no options, contradicting the claim. -/
theorem emptyCatalog_counterexample :
    (createQuestions noFuseEmojis noFuseWorkflows "no jira ticket" emptyTypesConfig).length
      = 8 ∧
    (findTypeSource (createQuestions noFuseEmojis noFuseWorkflows "no jira ticket"
      emptyTypesConfig)).map (fun src => src "") = some [] := by
  exact ⟨rfl, rfl⟩

/-- Claim C3, amended: when the resolved configuration contains zero
change-types, the pipeline raises no error: `createQuestions` returns the
full eight-question list whose `type` question offers an empty choice list
for the empty query, and this list is handed to the prompt engine. -/
theorem emptyCatalog_amended (fe : List ChoiceEntry → String → List ChoiceEntry)
    (fw : List WorkflowTag → String → List WorkflowTag) (jt : String) (config : Config)
    (h : config.types = []) :
    (createQuestions fe fw jt config).length = 8 ∧
    (findTypeSource (createQuestions fe fw jt config)).map (fun src => src "") = some [] := by
  have h0 : ("" : String).isEmpty = true := rfl
  constructor
  · rfl
  · simp [createQuestions, findTypeSource, typeSource, getEmojiChoices, h, truthyStr, h0]

/-- Witness for `emptyCatalog_amended` at the concrete empty-types
configuration. -/
theorem emptyCatalog_amended_witness :
    (createQuestions (fun _ _ => []) (fun _ _ => []) "jt" emptyTypesConfig).length = 8 ∧
    (findTypeSource (createQuestions (fun _ _ => []) (fun _ _ => []) "jt"
      emptyTypesConfig)).map (fun src => src "") = some [] :=
  emptyCatalog_amended (fun _ _ => []) (fun _ _ => []) "jt" emptyTypesConfig rfl

/-- Claim C4, counterexample: with `symbol` true, the produced `value.emoji`
is not exactly the type's glyph: `getEmojiChoices` appends a trailing space
(template literal `` `${choice.emoji} ` ``), so for the sample type the
selectable value is `"🌟 "`, not `"🌟"`. -/
theorem choiceValue_symbol_counterexample :
    (getEmojiChoices [sampleType] true).map (fun c => c.value.emoji) = ["🌟 "] ∧
    ("🌟 " : String) ≠ "🌟" := by
  exact ⟨rfl, by decide⟩

/-- Claim C4, amended: in every ChoiceEntry produced by `getEmojiChoices`,
`value.emoji` equals the type's emoji glyph followed by a single trailing
space when `symbol` is true, and exactly the type's `code` token when it is
false; `value.name` always equals the type's `name`. -/
theorem choiceValue_amended (types : List ChangeType) (symbol : Bool) :
    (getEmojiChoices types symbol).map (fun c => c.value) =
      types.map (fun t => { emoji := if symbol then t.emoji ++ " " else t.code,
                            name := t.name }) := by
  simp [getEmojiChoices, List.map_map]

/-- Claim C5: the version-control resolver maps `feature/ABC-123-fix` to
`ABC-123`, `main` to the sentinel `no jira ticket`, and
`ABC-1-and-DEF-22` (two matches, `ABC-1` then `DEF-22`) to the last match
`DEF-22`; in general the result is the last regex match when any exists and
the literal `no jira ticket` otherwise. -/
theorem gitBranch_resolver_spec :
    getGitBranchResolve "feature/ABC-123-fix" = "ABC-123" ∧
    getGitBranchResolve "main" = "no jira ticket" ∧
    getGitBranchResolve "ABC-1-and-DEF-22" = "DEF-22" ∧
    jiraMatches "ABC-1-and-DEF-22".data = ["ABC-1".data, "DEF-22".data] ∧
    ∀ s : String, getGitBranchResolve s =
      (((jiraMatches s.data).getLast?).map (fun m => String.mk m)).getD "no jira ticket" := by
  refine ⟨by decide, by decide, by decide, by decide, ?_⟩
  intro s
  unfold getGitBranchResolve
  cases (jiraMatches s.data).getLast? <;> rfl

/-- Claim C6: `formatHead` produces
`"{type.name}{formatScope(scope)}: {type.emoji} {subject}"` when
`config.conventional` is true, and emoji, space, bracketed scope, then two
spaces and the subject otherwise; in particular the sample inputs give
`"feature(api): 🌟 add x"` and `"🌟 (api)  add x"` (two spaces before the
subject). -/
theorem formatHead_spec :
    (∀ (a : Answers) (config : Config),
      formatHead a config =
        if config.conventional then
          a.type.name ++ formatScope a.scope ++ ": " ++ a.type.emoji ++ " " ++ a.subject
        else
          a.type.emoji ++ " " ++ formatScope a.scope ++ "  " ++ a.subject) ∧
    formatHead { type := { emoji := "🌟", name := "feature" }, scope := "api",
                 issues := "", workflow := "", subject := "add x", time := "",
                 comment := "", body := "" }
      { defaultConfig [] with conventional := true } = "feature(api): 🌟 add x" ∧
    formatHead { type := { emoji := "🌟", name := "feature" }, scope := "api",
                 issues := "", workflow := "", subject := "add x", time := "",
                 comment := "", body := "" }
      { defaultConfig [] with conventional := false } = "🌟 (api)  add x" := by
  refine ⟨?_, by decide, by decide⟩
  intro a config
  unfold formatHead
  cases hc : config.conventional
  · simp only [hc, Bool.false_eq_true, if_false]
    rw [String.append_assoc (a.type.emoji ++ " " ++ formatScope a.scope) " " " "]
    have h2 : (" " : String) ++ " " = "  " := rfl
    rw [h2]
  · simp [hc]

/-- Claim C7: `formatBody` returns `"{body} \n {issues} {smartSuffix}"`
where the smart suffix is the space-separated concatenation of exactly the
present-and-non-sentinel tokens (`"#" + workflow` omitted for the `[NONE]`
sentinel, `"#time " + time`, `"#comment " + comment`); on the sample inputs
the result is `"fix bug \n ABC-1 #time 2h #comment done"`, which contains
no `#[NONE]` token but contains `#time 2h` and `#comment done` preceded by
`ABC-1`. -/
theorem formatBody_spec :
    (∀ (a : Answers) (config : Config),
      formatBody a config =
        a.body ++ " \n " ++ a.issues ++ " " ++ String.intercalate " " (smartTokensSpec a)) ∧
    formatBody { type := { emoji := "", name := "" }, scope := "", issues := "ABC-1",
                 workflow := "[NONE]", subject := "", time := "2h", comment := "done",
                 body := "fix bug" } (defaultConfig [])
      = "fix bug \n ABC-1 #time 2h #comment done" ∧
    hasSubstring "#[NONE]".data "fix bug \n ABC-1 #time 2h #comment done".data = false ∧
    hasSubstring "#time 2h".data "fix bug \n ABC-1 #time 2h #comment done".data = true ∧
    hasSubstring "ABC-1 #time 2h #comment done".data
      "fix bug \n ABC-1 #time 2h #comment done".data = true := by
  exact ⟨formatBody_eq_spec, by decide, by decide, by decide, by decide⟩

/-- Claim C8: for a non-empty type catalog, the autocomplete `source`
callbacks of the `type` and `workflow` questions built by `createQuestions`
resolve an empty query to the full respective collections, in original
order with no ranking: all type choices, and the workflow catalog with the
`[NONE]` sentinel first. -/
theorem source_empty_query_spec (fe : List ChoiceEntry → String → List ChoiceEntry)
    (fw : List WorkflowTag → String → List WorkflowTag) (jt : String) (config : Config)
    (q : String) (hne : config.types ≠ []) (hq : q = "") :
    (findTypeSource (createQuestions fe fw jt config)).map (fun src => src q) =
      some (getEmojiChoices config.types config.symbol) ∧
    (findWorkflowSource (createQuestions fe fw jt config)).map (fun src => src q) =
      some ({ name := "[NONE]", value := "[NONE]" } :: config.workflows) := by
  subst hq
  have h0 : ("" : String).isEmpty = true := rfl
  simp [createQuestions, findTypeSource, findWorkflowSource, typeSource, workflowSource,
    truthyStr, h0]

/-- Witness for `source_empty_query_spec` at the one-type sample
configuration and the empty query. -/
theorem source_empty_query_spec_witness :
    (findTypeSource (createQuestions noFuseEmojis noFuseWorkflows "jt" sampleConfig)).map
      (fun src => src "") = some (getEmojiChoices sampleConfig.types sampleConfig.symbol) ∧
    (findWorkflowSource (createQuestions noFuseEmojis noFuseWorkflows "jt" sampleConfig)).map
      (fun src => src "") =
      some ({ name := "[NONE]", value := "[NONE]" } :: sampleConfig.workflows) :=
  source_empty_query_spec noFuseEmojis noFuseWorkflows "jt" sampleConfig "" (by decide) rfl

/-- Claim C9: `formatHead` is independent of the `issues`, `workflow`,
`time` and `comment` fields it destructures: two answer records agreeing on
`type`, `scope` and `subject` format to the same head line under every
configuration. -/
theorem formatHead_independent_of_smart_fields (a b : Answers) (config : Config)
    (ht : a.type = b.type) (hs : a.scope = b.scope) (hj : a.subject = b.subject) :
    formatHead a config = formatHead b config := by
  unfold formatHead
  rw [ht, hs, hj]

/-- Witness for `formatHead_independent_of_smart_fields` at two concrete
records differing in all four smart-commit fields. -/
theorem formatHead_independent_witness :
    formatHead headAnswersA sampleConfig = formatHead headAnswersB sampleConfig :=
  formatHead_independent_of_smart_fields headAnswersA headAnswersB sampleConfig rfl rfl rfl

/-- Claim C10: when `time` and `comment` are absent (empty) and `workflow`
is the `[NONE]` sentinel, the smart suffix is empty and `formatBody`
returns exactly `body ++ " \n " ++ issues ++ " "`: the separator is the
three characters space, newline, space, and the result ends with a trailing
space after the issue key. -/
theorem formatBody_empty_suffix (a : Answers) (config : Config) (hT : a.time = "")
    (hC : a.comment = "") (hW : a.workflow = "[NONE]") :
    formatBody a config = a.body ++ " \n " ++ a.issues ++ " " := by
  rw [formatBody_eq_spec a config]
  unfold smartTokensSpec
  simp [hT, hC, hW, String.append_assoc, String.append_empty]
  rfl

/-- Witness for `formatBody_empty_suffix` at a concrete record. -/
theorem formatBody_empty_suffix_witness :
    formatBody bodyAnswers sampleConfig = "fix bug" ++ " \n " ++ "ABC-1" ++ " " :=
  formatBody_empty_suffix bodyAnswers sampleConfig rfl rfl rfl

end CzEmoji
